import Mathlib

/-
Formal model of the script-hosting bot in `src/main.py`: per-user workspace
paths (`UserManager`), dependency installation (`ScriptManager.install_requirements`),
the process registry (`run_script` / `get_running_scripts` / `stop_script` over the
module-level `RUNNING_PROCESSES` dict), and the upload conversation handlers
(`handle_requirements` / `handle_files` / `handle_main_script`).

Python strings are modelled as Lean `String`; filesystem paths as `List String`
(path components under the working directory); the `RUNNING_PROCESSES` dict as an
association list with Python-dict lookup/assignment/deletion semantics; OS-level
effects (subprocess runs, file downloads, process liveness) as explicit oracle
parameters recording exactly the data the source consults.
-/

/-! ### Decimal representation of user ids

`f"{user_id}_..."` and `str(user_id)` render the (nonnegative) Telegram user id
in decimal, most significant digit first.  `toDecAux` is fuel-indexed so that it
is structurally recursive and kernel-evaluable; fuel `n` always suffices for `n`. -/

/-- Digits of `n` in base 10, most significant first; `[]` for `n = 0`.
First argument is fuel. -/
def toDecAux : Nat → Nat → List Char
  | 0, _ => []
  | fuel + 1, n => if n = 0 then [] else toDecAux fuel (n / 10) ++ [Nat.digitChar (n % 10)]

/-- The character list of Python `str(n)` for a nonnegative integer `n`. -/
def decChars (n : Nat) : List Char :=
  if n = 0 then ['0'] else toDecAux n n

/-- Python `str(n)` for a nonnegative integer `n`. -/
def natStr (n : Nat) : String := ⟨decChars n⟩

theorem digitChar_inj_lt10 : ∀ a, a < 10 → ∀ b, b < 10 → Nat.digitChar a = Nat.digitChar b → a = b := by
  decide

theorem digitChar_isDigit_lt10 : ∀ a, a < 10 → (Nat.digitChar a).isDigit = true := by
  decide

theorem toDecAux_eq_nil {f n : Nat} (hn : n ≤ f) (h : toDecAux f n = []) : n = 0 := by
  cases f with
  | zero => omega
  | succ f =>
    by_cases h0 : n = 0
    · exact h0
    · simp [toDecAux, h0] at h

theorem toDecAux_inj : ∀ f g m n : Nat, m ≤ f → n ≤ g →
    toDecAux f m = toDecAux g n → m = n := by
  intro f
  induction f with
  | zero =>
    intro g m n hm hn h
    interval_cases m
    exact (toDecAux_eq_nil hn h.symm).symm
  | succ f ih =>
    intro g m n hm hn h
    by_cases hm0 : m = 0
    · subst hm0
      simp only [toDecAux, if_pos rfl] at h
      exact (toDecAux_eq_nil hn h.symm).symm
    · by_cases hn0 : n = 0
      · subst hn0
        rw [show toDecAux g 0 = [] from by cases g <;> simp [toDecAux]] at h
        exact absurd (toDecAux_eq_nil hm h) hm0
      · cases g with
        | zero => omega
        | succ g =>
          simp only [toDecAux, if_neg hm0, if_neg hn0] at h
          have h' := congrArg List.reverse h
          simp only [List.reverse_append, List.reverse_cons, List.reverse_nil,
            List.nil_append, List.singleton_append, List.cons.injEq] at h'
          obtain ⟨hdig, hrest⟩ := h'
          have hfront : toDecAux f (m / 10) = toDecAux g (n / 10) := by
            have := congrArg List.reverse hrest
            simpa using this
          have hdiv : m / 10 = n / 10 := by
            refine ih g (m / 10) (n / 10) ?_ ?_ hfront
            · omega
            · omega
          have hmod : m % 10 = n % 10 :=
            digitChar_inj_lt10 (m % 10) (Nat.mod_lt _ (by norm_num)) (n % 10)
              (Nat.mod_lt _ (by norm_num)) hdig
          omega

theorem toDecAux_isDigit : ∀ f n : Nat, ∀ c ∈ toDecAux f n, c.isDigit = true := by
  intro f
  induction f with
  | zero => intro n c hc; simp [toDecAux] at hc
  | succ f ih =>
    intro n c hc
    by_cases h0 : n = 0
    · simp [toDecAux, h0] at hc
    · simp only [toDecAux, if_neg h0, List.mem_append, List.mem_singleton] at hc
      rcases hc with hc | hc
      · exact ih _ c hc
      · subst hc
        exact digitChar_isDigit_lt10 _ (Nat.mod_lt _ (by norm_num))

theorem decChars_inj : ∀ m n : Nat, decChars m = decChars n → m = n := by
  intro m n h
  by_cases hm : m = 0 <;> by_cases hn : n = 0
  · omega
  · exfalso
    simp only [decChars, if_pos hm, if_neg hn] at h
    rcases Nat.exists_eq_succ_of_ne_zero hn with ⟨k, rfl⟩
    simp only [toDecAux] at h
    rw [if_neg hn] at h
    have h' := congrArg List.reverse h
    simp [List.reverse_append] at h'
    have hmod : (k + 1) % 10 = 0 :=
      digitChar_inj_lt10 _ (Nat.mod_lt _ (by norm_num)) 0 (by norm_num) h'.1.symm
    have : (k + 1) / 10 = 0 := toDecAux_eq_nil (by omega) h'.2
    omega
  · exfalso
    simp only [decChars, if_neg hm, if_pos hn] at h
    rcases Nat.exists_eq_succ_of_ne_zero hm with ⟨k, rfl⟩
    simp only [toDecAux] at h
    rw [if_neg hm] at h
    have h' := congrArg List.reverse h
    simp [List.reverse_append] at h'
    have hmod : (k + 1) % 10 = 0 :=
      digitChar_inj_lt10 _ (Nat.mod_lt _ (by norm_num)) 0 (by norm_num) h'.1
    have : (k + 1) / 10 = 0 := toDecAux_eq_nil (by omega) h'.2
    omega
  · simp only [decChars, if_neg hm, if_neg hn] at h
    exact toDecAux_inj m n m n (le_refl m) (le_refl n) h

theorem decChars_isDigit : ∀ n : Nat, ∀ c ∈ decChars n, c.isDigit = true := by
  intro n c hc
  by_cases h0 : n = 0
  · simp [decChars, h0] at hc
    subst hc; decide
  · simp only [decChars, if_neg h0] at hc
    exact toDecAux_isDigit n n c hc

theorem decChars_ne_und : ∀ n : Nat, ∀ c ∈ decChars n, c ≠ '_' := by
  intro n c hc heq
  have := decChars_isDigit n c hc
  subst heq
  simp [Char.isDigit] at this

/-! ### Underscore-separated keys

Keys of the `RUNNING_PROCESSES` dict are built by the f-string
`f"{user_id}_{script_name}"`.  Since a decimal user id contains no underscore,
the part before the first underscore of a key determines the user. -/

/-- If `a` and `b` contain no underscore, an underscore-terminated extension of
`a` can only agree with an underscore-terminated extension of `b` when `a = b`. -/
theorem und_append_eq : ∀ (a b rest t : List Char),
    (∀ c ∈ a, c ≠ '_') → (∀ c ∈ b, c ≠ '_') →
    a ++ '_' :: rest = b ++ '_' :: t → a = b ∧ rest = t := by
  intro a
  induction a with
  | nil =>
    intro b rest t _ hb h
    cases b with
    | nil => simpa using h
    | cons y b' =>
      exfalso
      simp only [List.nil_append, List.cons_append, List.cons.injEq] at h
      exact hb y (by simp) h.1.symm
  | cons x a' ih =>
    intro b rest t ha hb h
    cases b with
    | nil =>
      exfalso
      simp only [List.cons_append, List.nil_append, List.cons.injEq] at h
      exact ha x (by simp) h.1
    | cons y b' =>
      simp only [List.cons_append, List.cons.injEq] at h
      obtain ⟨hxy, h'⟩ := h
      have := ih b' rest t (fun c hc => ha c (by simp [hc])) (fun c hc => hb c (by simp [hc])) h'
      exact ⟨by simp [hxy, this.1], this.2⟩

/-! ### Workspace paths (`UserManager`)

Paths are modelled as their component lists below the working directory.
Directory creation (`mkdir(exist_ok=True)`) is an idempotent filesystem side
effect that does not influence the returned path and is not modelled. -/

/-- `UserManager.get_user_dir`: `USER_DATA_DIR / str(user_id)` with
`USER_DATA_DIR = Path('user_data')`. -/
def get_user_dir (user_id : Nat) : List String :=
  ["user_data", natStr user_id]

/-- `UserManager.get_user_venv_dir`: `get_user_dir(user_id) / 'venv'`. -/
def get_user_venv_dir (user_id : Nat) : List String :=
  get_user_dir user_id ++ ["venv"]

/-- `UserManager.get_user_scripts_dir`: `get_user_dir(user_id) / 'scripts'`. -/
def get_user_scripts_dir (user_id : Nat) : List String :=
  get_user_dir user_id ++ ["scripts"]

/-- `UserManager.get_user_logs_dir`: `get_user_dir(user_id) / 'logs'`. -/
def get_user_logs_dir (user_id : Nat) : List String :=
  get_user_dir user_id ++ ["logs"]

/-- Render a component path the way `str(Path(...))` would, joining with `/`. -/
def pathStr (p : List String) : String :=
  String.intercalate "/" p

/-! ### The process registry (`RUNNING_PROCESSES`)

A Python `subprocess.Popen` handle is modelled by the data the source consults:
`poll()` (is the child still running), the reaction to `terminate()` /
`wait(timeout=10)` / `kill()`, and an identity (`pid`) so distinct spawns are
distinguishable.  The module-level dict `RUNNING_PROCESSES` is an association
list with Python's dict semantics: assignment overwrites in place, `del`
removes the key, `in` / indexing look the key up. -/

/-- A spawned child process as observed by the registry code. -/
structure Proc where
  /-- Identity of the OS process (distinguishes distinct spawns). -/
  pid : Nat
  /-- `poll() is None`: the child is still running at observation time. -/
  alive : Bool
  /-- Seconds after `terminate()` at which the child exits; `none` if it
  ignores graceful termination. -/
  termSecs : Option Nat
  /-- An OS-level exception raised by `terminate()`/`wait()` (other than
  `TimeoutExpired`), as caught by `except Exception`; `none` normally. -/
  stopErr : Option String
  deriving DecidableEq

/-- The `RUNNING_PROCESSES` dict, as an association list (insertion order,
unique keys maintained by the operations below). -/
abbrev Registry := List (String × Proc)

/-- Python dict lookup `d[k]` / membership `k in d`. -/
def dictGet? : Registry → String → Option Proc
  | [], _ => none
  | e :: rest, k => if e.1 = k then some e.2 else dictGet? rest k

/-- Python dict assignment `d[k] = v`: overwrite the first binding of `k` in
place, else append a new binding. -/
def dictSet (k : String) (v : Proc) : Registry → Registry
  | [] => [(k, v)]
  | e :: rest => if e.1 = k then (k, v) :: rest else e :: dictSet k v rest

/-- Python `del d[k]`. -/
def eraseKey (k : String) : Registry → Registry
  | [] => []
  | e :: rest => if e.1 = k then eraseKey k rest else e :: eraseKey k rest

theorem dictGet?_eraseKey_self (k : String) (reg : Registry) :
    dictGet? (eraseKey k reg) k = none := by
  induction reg with
  | nil => rfl
  | cons e rest ih =>
    by_cases he : e.1 = k
    · simpa [eraseKey, he] using ih
    · simpa [eraseKey, dictGet?, he] using ih

theorem dictGet?_eraseKey_ne (k k' : String) (reg : Registry) (h : k' ≠ k) :
    dictGet? (eraseKey k reg) k' = dictGet? reg k' := by
  have h2 : k ≠ k' := fun hh => h hh.symm
  induction reg with
  | nil => rfl
  | cons e rest ih =>
    by_cases he : e.1 = k
    · have he' : e.1 ≠ k' := fun hh => h (hh ▸ he)
      simpa [eraseKey, dictGet?, he, he', h, h2] using ih
    · by_cases he' : e.1 = k'
      · simp [eraseKey, dictGet?, he, he', h, h2]
      · simpa [eraseKey, dictGet?, he, he', h, h2] using ih

theorem dictGet?_dictSet_self (k : String) (v : Proc) (reg : Registry) :
    dictGet? (dictSet k v reg) k = some v := by
  induction reg with
  | nil => simp [dictSet, dictGet?]
  | cons e rest ih =>
    by_cases he : e.1 = k
    · simp [dictSet, dictGet?, he]
    · simpa [dictSet, dictGet?, he] using ih

theorem dictGet?_dictSet_ne (k k' : String) (v : Proc) (reg : Registry) (h : k' ≠ k) :
    dictGet? (dictSet k v reg) k' = dictGet? reg k' := by
  have h2 : k ≠ k' := fun hh => h hh.symm
  induction reg with
  | nil => simp [dictSet, dictGet?, h2]
  | cons e rest ih =>
    by_cases he : e.1 = k
    · have he' : e.1 ≠ k' := fun hh => h (hh ▸ he)
      simp [dictSet, dictGet?, he, he', h, h2]
    · by_cases he' : e.1 = k'
      · simp [dictSet, dictGet?, he, he', h, h2]
      · simpa [dictSet, dictGet?, he, he', h, h2] using ih

/-- The registry key `f"{user_id}_{script_name}"`. -/
def mkKey (user_id : Nat) (script_name : String) : String :=
  ⟨decChars user_id ++ '_' :: script_name.data⟩

/-- The scan pattern `f"{user_id}_"` used by `get_running_scripts`. -/
def userPref (user_id : Nat) : String :=
  ⟨decChars user_id ++ ['_']⟩

/-- Python `s.startswith(p)`. -/
def pyStartswith (s p : String) : Bool :=
  List.isPrefixOf p.data s.data

/-- Python `s.replace(pat, rep)` (all non-overlapping occurrences, left to
right), fuel-indexed on the length of `s` so that it is structurally recursive;
the fuel never runs out because every step consumes at least one character. -/
def replaceAllFuel : Nat → List Char → List Char → List Char → List Char
  | 0, _, _, s => s
  | fuel + 1, pat, rep, s =>
    match s with
    | [] => []
    | c :: rest =>
      if List.isPrefixOf pat (c :: rest) && !List.isEmpty pat then
        rep ++ replaceAllFuel fuel pat rep (List.drop (pat.length - 1) rest)
      else
        c :: replaceAllFuel fuel pat rep rest

/-- Python `s.replace(pat, rep)`. -/
def pyReplace (s pat rep : String) : String :=
  ⟨replaceAllFuel s.data.length pat.data rep.data s.data⟩

/-- Keys of two different users are never equal: the decimal user id before the
first underscore determines the user. -/
theorem mkKey_ne_of_user_ne {u u' : Nat} (h : u ≠ u') (s s' : String) :
    mkKey u s ≠ mkKey u' s' := by
  intro hk
  have hk' : decChars u ++ '_' :: s.data = decChars u' ++ '_' :: s'.data :=
    congrArg String.data hk
  exact h (decChars_inj u u'
    (und_append_eq _ _ _ _ (decChars_ne_und u) (decChars_ne_und u') hk').1)

/-- A key of user `u'` never matches the scan pattern `f"{u}_"` of a different
user `u`. -/
theorem pyStartswith_mkKey_ne {u u' : Nat} (h : u ≠ u') (s' : String) :
    pyStartswith (mkKey u' s') (userPref u) = false := by
  by_contra hb
  rw [Bool.not_eq_false, pyStartswith, userPref, mkKey,
    List.isPrefixOf_iff_prefix] at hb
  obtain ⟨tl, htl⟩ := hb
  rw [List.append_assoc, List.singleton_append] at htl
  exact h (decChars_inj u u'
    (und_append_eq _ _ _ _ (decChars_ne_und u) (decChars_ne_und u') htl).1)

/-! ### Dependency installation (`ScriptManager.install_requirements`)

The two `subprocess.run` invocations are modelled by an oracle giving each
call's outcome; the model records every call made (command line and the
`timeout=` argument passed) and every file written, so the theorems can speak
about which external actions the function performs. -/

/-- Outcome of a `subprocess.run` call: completion with a return code and
captured stderr, or `subprocess.TimeoutExpired`. -/
inductive SubprocOutcome where
  | completed (returncode : Int) (stderr : String)
  | timedOut
  deriving DecidableEq

/-- A `subprocess.run` call as issued by the source: the command line and the
`timeout=` argument (in seconds). -/
structure SubprocCall where
  cmd : List String
  timeoutSecs : Nat
  deriving DecidableEq

/-- Environment of one `install_requirements` run: whether the user's venv
directory already exists, and the outcomes of the two subprocess calls
(each consulted only if the corresponding call is made). -/
structure InstallEnv where
  venvExists : Bool
  venvCreate : SubprocOutcome
  pipInstall : SubprocOutcome
  deriving DecidableEq

/-- Result of `install_requirements`: the returned `(success, message)` pair,
the subprocess calls issued, and the files written as `(path, content)`. -/
structure InstallResult where
  ok : Bool
  msg : String
  calls : List SubprocCall
  writes : List (List String × String)
  deriving DecidableEq

/-- The `[sys.executable, '-m', 'venv', str(venv_dir)]` command.
`sys.executable` depends on the host; its value is irrelevant to the claims. -/
def venvCreateCmd (user_id : Nat) : List String :=
  ["python3", "-m", "venv", pathStr (get_user_venv_dir user_id)]

/-- The `[str(pip_path), 'install', '-r', str(req_file)]` command
(`os.name != 'nt'`, so `pip_path = venv_dir / 'bin' / 'pip'`). -/
def pipInstallCmd (user_id : Nat) : List String :=
  [pathStr (get_user_venv_dir user_id ++ ["bin", "pip"]),
   "install", "-r", pathStr (get_user_dir user_id ++ ["requirements.txt"])]

/-- The write-then-install tail of `install_requirements`, reached once the
venv exists or was created successfully: writes `requirements.txt` and runs
`pip install -r` with `timeout=600`. -/
def installTail (env : InstallEnv) (user_id : Nat) (content : String)
    (calls0 : List SubprocCall) : InstallResult :=
  let reqWrite := (get_user_dir user_id ++ ["requirements.txt"], content)
  let pipCall : SubprocCall := ⟨pipInstallCmd user_id, 600⟩
  match env.pipInstall with
  | .timedOut =>
    { ok := false, msg := "Installation timed out (10 minutes limit)",
      calls := calls0 ++ [pipCall], writes := [reqWrite] }
  | .completed rc stderr =>
    if rc ≠ 0 then
      { ok := false, msg := "Failed to install requirements: " ++ stderr,
        calls := calls0 ++ [pipCall], writes := [reqWrite] }
    else
      { ok := true, msg := "Requirements installed successfully!",
        calls := calls0 ++ [pipCall], writes := [reqWrite] }

/-- `ScriptManager.install_requirements(user_id, requirements_content)`:
create the venv if absent (`timeout=300`); on non-zero exit or timeout fail;
otherwise write `requirements.txt` and run `pip install -r` (`timeout=600`);
non-zero exit or timeout fail, else succeed.  A `TimeoutExpired` from either
call lands in the same `except` clause and yields the same message. -/
def install_requirements (env : InstallEnv) (user_id : Nat) (content : String) :
    InstallResult :=
  if env.venvExists then
    installTail env user_id content []
  else
    let createCall : SubprocCall := ⟨venvCreateCmd user_id, 300⟩
    match env.venvCreate with
    | .timedOut =>
      { ok := false, msg := "Installation timed out (10 minutes limit)",
        calls := [createCall], writes := [] }
    | .completed rc stderr =>
      if rc ≠ 0 then
        { ok := false, msg := "Failed to create virtual environment: " ++ stderr,
          calls := [createCall], writes := [] }
      else
        installTail env user_id content [createCall]

/-! ### Starting a script (`ScriptManager.run_script`)

Interpreter probing (the venv candidate loop) affects only which executable is
used and the wording of the success message; it never touches the registry, so
it is abstracted into the oracle fields `pythonSource` / `pythonPath`.  Spawning
creates a log file and registers the fresh process handle under
`f"{user_id}_{script_name}"` — with plain dict assignment, never checking
whether the key is already present. -/

/-- Environment of one `run_script` call. -/
structure RunEnv where
  /-- `script_path.exists()`. -/
  scriptExists : Bool
  /-- The final `Path(python_path).exists()` verification. -/
  pythonOk : Bool
  /-- `"system"` or `"virtual environment"`, from the probing loop. -/
  pythonSource : String
  /-- The chosen interpreter path (only echoed in the failure message). -/
  pythonPath : String
  /-- Exception text if `open`/`Popen` raises, caught by `except Exception`. -/
  spawnErr : Option String
  /-- The fresh process handle produced by `subprocess.Popen`. -/
  spawned : Proc
  deriving DecidableEq

/-- `ScriptManager.run_script(user_id, script_name)`: returns the
`(success, message)` pair and the updated `RUNNING_PROCESSES` dict. -/
def run_script (env : RunEnv) (user_id : Nat) (script_name : String)
    (reg : Registry) : (Bool × String) × Registry :=
  if !env.scriptExists then
    ((false, "Script not found"), reg)
  else if !env.pythonOk then
    ((false, "Python executable not found: " ++ env.pythonPath), reg)
  else
    match env.spawnErr with
    | some e => ((false, "Error running script: " ++ e), reg)
    | none =>
      ((true, "Script " ++ script_name ++ " started with " ++ env.pythonSource ++ " Python!"),
       dictSet (mkKey user_id script_name) env.spawned reg)

/-! ### Listing running scripts (`ScriptManager.get_running_scripts`) -/

/-- The loop body of `get_running_scripts`: iterate over the snapshot
`list(RUNNING_PROCESSES.items())`; keys starting with `f"{user_id}_"` are
polled — live ones contribute `key.replace(f"{user_id}_", "")` to the result,
dead ones are deleted from the live dict. -/
def grsGo (user_id : Nat) : List (String × Proc) → Registry → List String × Registry
  | [], reg => ([], reg)
  | (k, p) :: rest, reg =>
    if pyStartswith k (userPref user_id) then
      if p.alive then
        let r := grsGo user_id rest reg
        ((pyReplace k (userPref user_id) "") :: r.1, r.2)
      else
        grsGo user_id rest (eraseKey k reg)
    else
      grsGo user_id rest reg

/-- `ScriptManager.get_running_scripts(user_id)`: returns the listed names and
the updated `RUNNING_PROCESSES` dict. -/
def get_running_scripts (user_id : Nat) (reg : Registry) : List String × Registry :=
  grsGo user_id reg reg

/-! ### Stopping a script (`ScriptManager.stop_script`) -/

/-- The grace period passed to `process.wait(timeout=10)`. -/
def stopGraceSecs : Nat := 10

/-- `ScriptManager.stop_script(user_id, script_name)`: returns the
`(success, message)` pair and the updated `RUNNING_PROCESSES` dict.
`terminate()` then `wait(timeout=10)`: if the child exits within the grace
period the record is deleted and the graceful message returned; on
`TimeoutExpired` it is killed, deleted, and the force-kill message returned;
any other exception is reported without touching the dict. -/
def stop_script (user_id : Nat) (script_name : String) (reg : Registry) :
    (Bool × String) × Registry :=
  let k := mkKey user_id script_name
  match dictGet? reg k with
  | none => ((false, "Script not running or not found"), reg)
  | some p =>
    match p.stopErr with
    | some e => ((false, "Error stopping script: " ++ e), reg)
    | none =>
      match p.termSecs with
      | some t =>
        if t ≤ stopGraceSecs then
          ((true, "Script " ++ script_name ++ " stopped successfully!"), eraseKey k reg)
        else
          ((true, "Script " ++ script_name ++ " force-killed!"), eraseKey k reg)
      | none =>
        ((true, "Script " ++ script_name ++ " force-killed!"), eraseKey k reg)

/-! ### The upload conversation (`/upload`)

`ConversationHandler` states `UPLOAD_REQUIREMENTS`, `UPLOAD_FILES`,
`UPLOAD_MAIN_SCRIPT` plus `ConversationHandler.END`.  A Telegram message
carries either text or a document.  Each handler is modelled as a function
from the incoming message (and the oracles it consults) to the replies sent,
the next conversation state, the files persisted, and the
`install_requirements` / `run_script` invocations it makes. -/

/-- Conversation states of the upload flow. -/
inductive ConvState where
  | uploadRequirements
  | uploadFiles
  | uploadMainScript
  | convEnd
  deriving DecidableEq

/-- A document attached to a Telegram message. -/
structure Document where
  fileName : String
  content : String
  deriving DecidableEq

/-- An incoming Telegram message: its text and/or attached document. -/
structure Msg where
  text : Option String
  document : Option Document
  deriving DecidableEq

/-- Observable effects of one conversation-handler invocation. -/
structure HandlerResult where
  /-- Texts sent with `reply_text` (prompts and status messages). -/
  replies : List String
  /-- The conversation state returned to `ConversationHandler`. -/
  nextState : ConvState
  /-- Files persisted to disk, as `(path, content)`. -/
  saved : List (List String × String)
  /-- Manifest contents passed to `ScriptManager.install_requirements`. -/
  installCalls : List String
  /-- `(user_id, script_name)` arguments passed to `ScriptManager.run_script`. -/
  runCalls : List (Nat × String)
  deriving DecidableEq

/-- Python name lookup in a local scope (names bound to their values); an
unbound name raises `NameError`. -/
def pyVar (scope : List (String × Nat)) (x : String) : Except String Nat :=
  match List.lookup x scope with
  | some v => Except.ok v
  | none => Except.error ("NameError: name " ++ x ++ " is not defined")

/-- `handle_requirements(update, context)`: `/skip` advances to the files
stage; a non-document re-prompts; a document is downloaded and decoded
(`fetchErr` is the exception text if that fails) and then
`install_requirements` is invoked synchronously on its content — on success
the session advances to the files stage, on failure it stays at the
requirements stage. -/
def handle_requirements (env : InstallEnv) (fetchErr : Option String)
    (user_id : Nat) (m : Msg) : HandlerResult :=
  if m.text = some "/skip" then
    { replies := ["📄 Please send your other project files as documents.\n\nWhen done, send /done to continue to main script upload."],
      nextState := .uploadFiles, saved := [], installCalls := [], runCalls := [] }
  else
    match m.document with
    | none =>
      { replies := ["Please send a document file or /skip"],
        nextState := .uploadRequirements, saved := [], installCalls := [], runCalls := [] }
    | some doc =>
      match fetchErr with
      | some e =>
        { replies := ["❌ Error processing requirements: " ++ e],
          nextState := .uploadRequirements, saved := [], installCalls := [], runCalls := [] }
      | none =>
        let r := install_requirements env user_id doc.content
        if r.ok then
          { replies := ["✅ " ++ r.msg,
              "📄 Please send your other project files as documents.\n\nWhen done, send /done to continue to main script upload."],
            nextState := .uploadFiles, saved := r.writes,
            installCalls := [doc.content], runCalls := [] }
        else
          { replies := ["❌ " ++ r.msg],
            nextState := .uploadRequirements, saved := r.writes,
            installCalls := [doc.content], runCalls := [] }

/-- The `try:` block of `handle_files`.  Its first statement is
`scripts_dir = UserManager.get_user_scripts_dir(user_id)`, but `handle_files`
binds only `user` (`user = update.effective_user`) — the name `user_id` is
unbound there, so the lookup raises `NameError` before the download is ever
attempted.  On a hypothetical success the block would save the document into
the scripts directory and reply that the file was saved. -/
def handle_files_try (fetchErr : Option String) (userVal : Nat) (doc : Document) :
    Except String (List (List String × String) × String) :=
  match pyVar [("user", userVal)] "user_id" with
  | Except.error e => Except.error e
  | Except.ok uid =>
    match fetchErr with
    | some e => Except.error e
    | none =>
      Except.ok ([(get_user_scripts_dir uid ++ [doc.fileName], doc.content)],
        "✅ File *" ++ doc.fileName ++ "* saved!")

/-- `handle_files(update, context)`: `/done` advances to the main-script stage
(unconditionally); a non-document re-prompts; a document enters the `try:`
block above, whose exception is caught and reported. -/
def handle_files (fetchErr : Option String) (userVal : Nat) (m : Msg) :
    HandlerResult :=
  if m.text = some "/done" then
    { replies := ["🐍 Now please send your main Python script as a document."],
      nextState := .uploadMainScript, saved := [], installCalls := [], runCalls := [] }
  else
    match m.document with
    | none =>
      { replies := ["Please send a document file or /done when finished"],
        nextState := .uploadFiles, saved := [], installCalls := [], runCalls := [] }
    | some doc =>
      match handle_files_try fetchErr userVal doc with
      | Except.ok (writes, reply) =>
        { replies := [reply], nextState := .uploadFiles, saved := writes,
          installCalls := [], runCalls := [] }
      | Except.error e =>
        { replies := ["❌ Error saving file: " ++ e], nextState := .uploadFiles,
          saved := [], installCalls := [], runCalls := [] }

/-- `handle_main_script(update, context)`: a non-document re-prompts; a
document is saved into the user's scripts directory (here the source correctly
uses `user.id`) and the conversation ends with a static success message.  No
call to `install_requirements` or `run_script` is made. -/
def handle_main_script (fetchErr : Option String) (user_id : Nat) (m : Msg) :
    HandlerResult :=
  match m.document with
  | none =>
    { replies := ["Please send your Python script as a document"],
      nextState := .uploadMainScript, saved := [], installCalls := [], runCalls := [] }
  | some doc =>
    match fetchErr with
    | some e =>
      { replies := ["❌ Error saving script: " ++ e],
        nextState := .uploadMainScript, saved := [], installCalls := [], runCalls := [] }
    | none =>
      { replies := ["📂 File *" ++ doc.fileName ++ "* uploaded and dependencies installed successfully!\n\nYou can now use /run to execute your script!"],
        nextState := .convEnd,
        saved := [(get_user_scripts_dir user_id ++ [doc.fileName], doc.content)],
        installCalls := [], runCalls := [] }

/-! ### Claims -/

/-- C9: for distinct users `u1 ≠ u2` the workspace directories
`get_user_dir(u1)` and `get_user_dir(u2)` are distinct and neither is an
ancestor of the other, so the two users' directory subtrees are disjoint. -/
theorem user_dirs_disjoint (u1 u2 : Nat) (h : u1 ≠ u2) :
    get_user_dir u1 ≠ get_user_dir u2 ∧
    ¬ get_user_dir u1 <+: get_user_dir u2 ∧
    ¬ get_user_dir u2 <+: get_user_dir u1 := by
  have hne : natStr u1 ≠ natStr u2 := fun hs =>
    h (decChars_inj u1 u2 (congrArg String.data hs))
  have hne' : natStr u2 ≠ natStr u1 := fun hs => hne hs.symm
  refine ⟨?_, ?_, ?_⟩
  · intro he
    simp only [get_user_dir, List.cons.injEq, and_true, true_and] at he
    exact hne he
  · rintro ⟨t, ht⟩
    simp only [get_user_dir, List.cons_append, List.cons.injEq, true_and] at ht
    exact hne ht.1
  · rintro ⟨t, ht⟩
    simp only [get_user_dir, List.cons_append, List.cons.injEq, true_and] at ht
    exact hne' ht.1

/-- Witness for C9 at the concrete users 1 and 2. -/
theorem user_dirs_disjoint_wit :
    get_user_dir 1 ≠ get_user_dir 2 ∧
    ¬ get_user_dir 1 <+: get_user_dir 2 ∧
    ¬ get_user_dir 2 <+: get_user_dir 1 :=
  user_dirs_disjoint 1 2 (by decide)

/-- C2: refuted as stated — `handle_files` never persists a submitted file.
Its `try:` block reads the unbound name `user_id` (the function binds only
`user`), so every document submission raises `NameError`, is caught, and an
error (not success) is reported with nothing written to disk. -/
theorem handle_files_never_saves (fetchErr : Option String) (userVal : Nat)
    (doc : Document) :
    handle_files fetchErr userVal ⟨none, some doc⟩ =
      { replies := ["❌ Error saving file: NameError: name user_id is not defined"],
        nextState := .uploadFiles, saved := [], installCalls := [], runCalls := [] } := by
  rfl

/-- C7 counterexample: with no file collected (the session has only just
reached the files stage and nothing was saved), the "/done" signal still
advances to the main-script stage instead of re-prompting. -/
theorem done_without_files_advances_cex :
    (handle_files none 5 ⟨some "/done", none⟩).nextState = ConvState.uploadMainScript ∧
    (handle_files none 5 ⟨some "/done", none⟩).saved = [] ∧
    ConvState.uploadMainScript ≠ ConvState.uploadFiles := by
  decide

/-- C7 amended: the "/done" signal always advances the session to the
main-script stage; no check that any file was collected is performed. -/
theorem done_always_advances (fetchErr : Option String) (userVal : Nat) (m : Msg)
    (h : m.text = some "/done") :
    (handle_files fetchErr userVal m).nextState = ConvState.uploadMainScript := by
  simp [handle_files, h]

/-- Witness for C7's amended statement at a concrete message. -/
theorem done_always_advances_wit :
    (handle_files none 5 ⟨some "/done", none⟩).nextState = ConvState.uploadMainScript :=
  done_always_advances none 5 ⟨some "/done", none⟩ rfl

/-- C5: refuted as stated — listing uses `key.replace(f"{user_id}_", "")`,
which removes every occurrence of the prefix pattern, not just the leading
one.  For user 1 with live script `a_1_b.py` (key `1_a_1_b.py`) the listing
reports `a_b.py`, which is not the script's name. -/
theorem get_running_scripts_mangles_name :
    (get_running_scripts 1 [(mkKey 1 "a_1_b.py", ⟨3, true, some 0, none⟩)]).1 = ["a_b.py"] ∧
    (get_running_scripts 1 [(mkKey 1 "a_1_b.py", ⟨3, true, some 0, none⟩)]).2 =
      [(mkKey 1 "a_1_b.py", ⟨3, true, some 0, none⟩)] ∧
    "a_b.py" ≠ "a_1_b.py" := by
  decide

/-- C1 counterexample: selecting the entry point (a document at the
main-script stage, here with no manifest recorded, so the claim requires a
`start` invocation) terminates the session without invoking either the
installer or the registry's start operation. -/
theorem mainScript_no_start_cex :
    (handle_main_script none 7 ⟨none, some ⟨"app.py", "print(1)"⟩⟩).nextState = ConvState.convEnd ∧
    (handle_main_script none 7 ⟨none, some ⟨"app.py", "print(1)"⟩⟩).runCalls = [] ∧
    (handle_main_script none 7 ⟨none, some ⟨"app.py", "print(1)"⟩⟩).installCalls = [] := by
  decide

/-- C1 amended: the main-script stage only persists the entry-point file and
terminates the session reporting upload success — it never invokes the
Dependency Installer or the Process Registry's start.  The installer is
instead invoked synchronously at the manifest stage (`handle_requirements`):
on installer failure the session stays at that stage reporting the error and
no process is started; on success it advances to the files stage.  No process
is ever started by the upload session. -/
theorem upload_install_at_manifest_stage :
    (∀ (fe : Option String) (uid : Nat) (m : Msg),
      (handle_main_script fe uid m).installCalls = [] ∧
      (handle_main_script fe uid m).runCalls = []) ∧
    (∀ (uid : Nat) (doc : Document),
      (handle_main_script none uid ⟨none, some doc⟩).nextState = ConvState.convEnd ∧
      (handle_main_script none uid ⟨none, some doc⟩).saved =
        [(get_user_scripts_dir uid ++ [doc.fileName], doc.content)]) ∧
    (∀ (env : InstallEnv) (uid : Nat) (doc : Document),
      (handle_requirements env none uid ⟨none, some doc⟩).installCalls = [doc.content] ∧
      (handle_requirements env none uid ⟨none, some doc⟩).runCalls = [] ∧
      ((install_requirements env uid doc.content).ok = true →
        (handle_requirements env none uid ⟨none, some doc⟩).nextState = ConvState.uploadFiles) ∧
      ((install_requirements env uid doc.content).ok = false →
        (handle_requirements env none uid ⟨none, some doc⟩).nextState = ConvState.uploadRequirements)) := by
  refine ⟨?_, ?_, ?_⟩
  · intro fe uid m
    rcases m with ⟨mt, md⟩
    rcases md with _ | doc <;> rcases fe with _ | e <;> simp [handle_main_script]
  · intro uid doc
    simp [handle_main_script]
  · intro env uid doc
    by_cases hok : (install_requirements env uid doc.content).ok = true
    · simp [handle_requirements, hok]
    · simp only [Bool.not_eq_true] at hok
      simp [handle_requirements, hok]

/-- Witness for C1's amended statement: a concrete manifest whose `pip`
invocation exits non-zero keeps the session at the requirements stage, and a
concrete entry-point selection makes no installer or start call. -/
theorem upload_install_at_manifest_stage_wit :
    (handle_requirements ⟨true, SubprocOutcome.completed 0 "", SubprocOutcome.completed 1 "boom"⟩
        none 7 ⟨none, some ⟨"requirements.txt", "requests==2.31"⟩⟩).nextState =
      ConvState.uploadRequirements ∧
    (handle_main_script none 7 ⟨none, some ⟨"app.py", "print(1)"⟩⟩).runCalls = [] :=
  ⟨(upload_install_at_manifest_stage.2.2
      ⟨true, SubprocOutcome.completed 0 "", SubprocOutcome.completed 1 "boom"⟩ 7
      ⟨"requirements.txt", "requests==2.31"⟩).2.2.2 (by decide),
   (upload_install_at_manifest_stage.1 none 7 ⟨none, some ⟨"app.py", "print(1)"⟩⟩).2⟩

/-- C3 counterexample: with a live record already registered under
`(1, "app.py")`, `run_script` still reports success (no `AlreadyRunning`
failure exists in the code) and overwrites the registry entry with the newly
spawned process, orphaning the old one. -/
theorem run_script_overwrites_cex :
    dictGet? [(mkKey 1 "app.py", (⟨1, true, some 0, none⟩ : Proc))] (mkKey 1 "app.py") =
      some ⟨1, true, some 0, none⟩ ∧
    (⟨1, true, some 0, none⟩ : Proc).alive = true ∧
    (run_script ⟨true, true, "system", "python3", none, ⟨2, true, some 0, none⟩⟩ 1 "app.py"
        [(mkKey 1 "app.py", ⟨1, true, some 0, none⟩)]).1.1 = true ∧
    dictGet? (run_script ⟨true, true, "system", "python3", none, ⟨2, true, some 0, none⟩⟩ 1 "app.py"
        [(mkKey 1 "app.py", ⟨1, true, some 0, none⟩)]).2 (mkKey 1 "app.py") =
      some ⟨2, true, some 0, none⟩ ∧
    (⟨2, true, some 0, none⟩ : Proc) ≠ ⟨1, true, some 0, none⟩ := by
  decide

/-- C3 amended: `run_script` performs no `AlreadyRunning` check.  Whenever the
script file exists, the interpreter verification passes and spawning does not
raise, it reports success and assigns the fresh process into the registry at
`(user_id, script_name)`, overwriting any existing record there (the registry
map still holds at most one record per key only because dict assignment
replaces the old value; a superseded process keeps running unmanaged). -/
theorem run_script_no_already_running (env : RunEnv) (uid : Nat) (s : String)
    (reg : Registry) (hs : env.scriptExists = true) (hp : env.pythonOk = true)
    (he : env.spawnErr = none) :
    (run_script env uid s reg).1.1 = true ∧
    (run_script env uid s reg).2 = dictSet (mkKey uid s) env.spawned reg ∧
    dictGet? (run_script env uid s reg).2 (mkKey uid s) = some env.spawned := by
  simp [run_script, hs, hp, he, dictGet?_dictSet_self]

/-- Witness for C3's amended statement on a registry already holding a live
record at the key. -/
theorem run_script_no_already_running_wit :
    (run_script ⟨true, true, "system", "python3", none, ⟨2, true, some 0, none⟩⟩ 1 "app.py"
        [(mkKey 1 "app.py", ⟨1, true, some 0, none⟩)]).1.1 = true ∧
    (run_script ⟨true, true, "system", "python3", none, ⟨2, true, some 0, none⟩⟩ 1 "app.py"
        [(mkKey 1 "app.py", ⟨1, true, some 0, none⟩)]).2 =
      dictSet (mkKey 1 "app.py") ⟨2, true, some 0, none⟩
        [(mkKey 1 "app.py", ⟨1, true, some 0, none⟩)] ∧
    dictGet? (run_script ⟨true, true, "system", "python3", none, ⟨2, true, some 0, none⟩⟩ 1 "app.py"
        [(mkKey 1 "app.py", ⟨1, true, some 0, none⟩)]).2 (mkKey 1 "app.py") =
      some ⟨2, true, some 0, none⟩ :=
  run_script_no_already_running
    ⟨true, true, "system", "python3", none, ⟨2, true, some 0, none⟩⟩ 1 "app.py"
    [(mkKey 1 "app.py", ⟨1, true, some 0, none⟩)] rfl rfl rfl

/-- C4: `stop_script` fails with the not-running message when no record exists
for the key, leaving the registry unchanged.  Otherwise (when `terminate()` /
`wait()` raise no OS-level error) it waits up to the 10-second grace period:
if the child exits within it the graceful message is returned, else the child
is force-killed and the kill message returned; both paths evict the record, so
an immediate second `stop` on the same key reports not-running and changes
nothing. -/
theorem stop_script_spec (uid : Nat) (s : String) (reg : Registry) :
    (dictGet? reg (mkKey uid s) = none →
      stop_script uid s reg = ((false, "Script not running or not found"), reg)) ∧
    (∀ p, dictGet? reg (mkKey uid s) = some p → p.stopErr = none →
      (stop_script uid s reg).2 = eraseKey (mkKey uid s) reg ∧
      dictGet? (stop_script uid s reg).2 (mkKey uid s) = none ∧
      (∀ t, p.termSecs = some t → t ≤ stopGraceSecs →
        (stop_script uid s reg).1 = (true, "Script " ++ s ++ " stopped successfully!")) ∧
      ((p.termSecs = none ∨ ∃ t, p.termSecs = some t ∧ stopGraceSecs < t) →
        (stop_script uid s reg).1 = (true, "Script " ++ s ++ " force-killed!")) ∧
      (stop_script uid s (stop_script uid s reg).2).1 =
        (false, "Script not running or not found") ∧
      (stop_script uid s (stop_script uid s reg).2).2 = (stop_script uid s reg).2) := by
  constructor
  · intro h
    simp [stop_script, h]
  · intro p hp hse
    rcases ht : p.termSecs with _ | t
    · have hr : stop_script uid s reg =
          ((true, "Script " ++ s ++ " force-killed!"), eraseKey (mkKey uid s) reg) := by
        simp [stop_script, hp, hse, ht]
      refine ⟨by rw [hr], by rw [hr]; exact dictGet?_eraseKey_self _ _, ?_, ?_, ?_, ?_⟩
      · intro t h1 _
        simp [ht] at h1
      · intro _
        rw [hr]
      · rw [hr]
        simp [stop_script, dictGet?_eraseKey_self]
      · rw [hr]
        simp [stop_script, dictGet?_eraseKey_self]
    · by_cases hle : t ≤ stopGraceSecs
      · have hr : stop_script uid s reg =
            ((true, "Script " ++ s ++ " stopped successfully!"), eraseKey (mkKey uid s) reg) := by
          simp [stop_script, hp, hse, ht, hle]
        refine ⟨by rw [hr], by rw [hr]; exact dictGet?_eraseKey_self _ _, ?_, ?_, ?_, ?_⟩
        · intro _ _ _
          rw [hr]
        · rintro (h1 | ⟨t', h1, h2⟩)
          · simp [ht] at h1
          · injection h1 with h1
            omega
        · rw [hr]
          simp [stop_script, dictGet?_eraseKey_self]
        · rw [hr]
          simp [stop_script, dictGet?_eraseKey_self]
      · have hr : stop_script uid s reg =
            ((true, "Script " ++ s ++ " force-killed!"), eraseKey (mkKey uid s) reg) := by
          simp [stop_script, hp, hse, ht, hle]
        refine ⟨by rw [hr], by rw [hr]; exact dictGet?_eraseKey_self _ _, ?_, ?_, ?_, ?_⟩
        · intro t' h1 h2
          injection h1 with h1
          omega
        · intro _
          rw [hr]
        · rw [hr]
          simp [stop_script, dictGet?_eraseKey_self]
        · rw [hr]
          simp [stop_script, dictGet?_eraseKey_self]

/-- Witness for C4: a live record that exits immediately on `terminate()` is
stopped gracefully and a second stop reports not-running. -/
theorem stop_script_spec_wit :
    (stop_script 1 "app.py" [(mkKey 1 "app.py", ⟨1, true, some 0, none⟩)]).1 =
      (true, "Script " ++ "app.py" ++ " stopped successfully!") ∧
    (stop_script 1 "app.py"
        (stop_script 1 "app.py" [(mkKey 1 "app.py", ⟨1, true, some 0, none⟩)]).2).1 =
      (false, "Script not running or not found") := by
  have h := (stop_script_spec 1 "app.py"
      [(mkKey 1 "app.py", ⟨1, true, some 0, none⟩)]).2
      ⟨1, true, some 0, none⟩ (by decide) rfl
  exact ⟨h.2.2.1 0 rfl (by decide), h.2.2.2.2.1⟩

/-- C8 counterexample: an install run that reaches the persistence step writes
the manifest to `user_data/7/requirements.txt`; no file named
`requirements.manifest` is ever written. -/
theorem manifest_filename_cex :
    (install_requirements ⟨true, SubprocOutcome.completed 0 "", SubprocOutcome.completed 0 ""⟩
        7 "requests==2.31").writes =
      [(["user_data", "7", "requirements.txt"], "requests==2.31")] ∧
    (∀ w ∈ (install_requirements ⟨true, SubprocOutcome.completed 0 "",
        SubprocOutcome.completed 0 ""⟩ 7 "requests==2.31").writes,
      w.1 ≠ ["user_data", "7", "requirements.manifest"]) := by
  decide

/-- C8 amended: every invocation reaching the persistence step writes the
manifest text verbatim to `requirements.txt` (not `requirements.manifest`)
directly under the user's workspace root, i.e. at
`<root>/<user_id>/requirements.txt`. -/
theorem manifest_written_verbatim_txt (env : InstallEnv) (uid : Nat) (content : String)
    (h : env.venvExists = true ∨ ∃ e, env.venvCreate = SubprocOutcome.completed 0 e) :
    (install_requirements env uid content).writes =
      [(get_user_dir uid ++ ["requirements.txt"], content)] := by
  have htail : ∀ calls0, (installTail env uid content calls0).writes =
      [(get_user_dir uid ++ ["requirements.txt"], content)] := by
    intro calls0
    cases hpi : env.pipInstall with
    | completed rc stderr => by_cases hrc : rc = 0 <;> simp [installTail, hpi, hrc]
    | timedOut => simp [installTail, hpi]
  rcases h with h | ⟨e, he⟩
  · simp [install_requirements, h, htail]
  · by_cases hve : env.venvExists = true
    · simp [install_requirements, hve, htail]
    · simp only [Bool.not_eq_true] at hve
      simp [install_requirements, hve, he, htail]

/-- Witness for C8's amended statement at a concrete install run. -/
theorem manifest_written_verbatim_txt_wit :
    (install_requirements ⟨false, SubprocOutcome.completed 0 "", SubprocOutcome.completed 0 ""⟩
        7 "requests==2.31").writes =
      [(get_user_dir 7 ++ ["requirements.txt"], "requests==2.31")] :=
  manifest_written_verbatim_txt
    ⟨false, SubprocOutcome.completed 0 "", SubprocOutcome.completed 0 ""⟩ 7 "requests==2.31"
    (Or.inr ⟨"", rfl⟩)

theorem installTail_calls (env : InstallEnv) (uid : Nat) (content : String)
    (calls0 : List SubprocCall) :
    (installTail env uid content calls0).calls = calls0 ++ [⟨pipInstallCmd uid, 600⟩] := by
  cases hpi : env.pipInstall with
  | completed rc stderr => by_cases hrc : rc = 0 <;> simp [installTail, hpi, hrc]
  | timedOut => simp [installTail, hpi]

theorem install_requirements_reached (env : InstallEnv) (uid : Nat) (content : String)
    (h : env.venvExists = true ∨ ∃ e, env.venvCreate = SubprocOutcome.completed 0 e) :
    ∃ calls0, install_requirements env uid content = installTail env uid content calls0 := by
  by_cases hve : env.venvExists = true
  · exact ⟨[], by simp [install_requirements, hve]⟩
  · simp only [Bool.not_eq_true] at hve
    rcases h with h | ⟨e, hvc⟩
    · rw [hve] at h
      cases h
    · exact ⟨[⟨venvCreateCmd uid, 300⟩], by simp [install_requirements, hve, hvc]⟩

/-- C6: `install_requirements` creates the venv only when it does not already
exist, passing `timeout=300` to that creation call; the `pip install -r` call
carries `timeout=600`; a non-zero pip exit yields a failure carrying pip's
captured stderr; a `TimeoutExpired` (from either call) yields a failure whose
message states the installation timed out; and a zero pip exit yields
success. -/
theorem install_requirements_spec (env : InstallEnv) (uid : Nat) (content : String) :
    ((env.venvExists = true →
       (install_requirements env uid content).calls = [⟨pipInstallCmd uid, 600⟩]) ∧
     (env.venvExists = false →
       (install_requirements env uid content).calls.head? =
         some ⟨venvCreateCmd uid, 300⟩) ∧
     (env.venvExists = false → ∀ e, env.venvCreate = SubprocOutcome.completed 0 e →
       (install_requirements env uid content).calls =
         [⟨venvCreateCmd uid, 300⟩, ⟨pipInstallCmd uid, 600⟩])) ∧
    (∀ rc err, env.pipInstall = SubprocOutcome.completed rc err → rc ≠ 0 →
      (env.venvExists = true ∨ ∃ e, env.venvCreate = SubprocOutcome.completed 0 e) →
      (install_requirements env uid content).ok = false ∧
      (install_requirements env uid content).msg =
        "Failed to install requirements: " ++ err) ∧
    (env.pipInstall = SubprocOutcome.timedOut →
      (env.venvExists = true ∨ ∃ e, env.venvCreate = SubprocOutcome.completed 0 e) →
      (install_requirements env uid content).ok = false ∧
      (install_requirements env uid content).msg =
        "Installation timed out (10 minutes limit)") ∧
    (∀ err, env.pipInstall = SubprocOutcome.completed 0 err →
      (env.venvExists = true ∨ ∃ e, env.venvCreate = SubprocOutcome.completed 0 e) →
      (install_requirements env uid content).ok = true ∧
      (install_requirements env uid content).msg =
        "Requirements installed successfully!") ∧
    (env.venvExists = false → env.venvCreate = SubprocOutcome.timedOut →
      (install_requirements env uid content).ok = false ∧
      (install_requirements env uid content).msg =
        "Installation timed out (10 minutes limit)") := by
  refine ⟨⟨?_, ?_, ?_⟩, ?_, ?_, ?_, ?_⟩
  · intro hve
    simp [install_requirements, hve, installTail_calls]
  · intro hve
    cases hvc : env.venvCreate with
    | timedOut => simp [install_requirements, hve, hvc]
    | completed rc err =>
      by_cases hrc : rc = 0 <;> simp [install_requirements, hve, hvc, hrc, installTail_calls]
  · intro hve e hvc
    simp [install_requirements, hve, hvc, installTail_calls]
  · intro rc err hpc hrc hreach
    obtain ⟨c0, hc⟩ := install_requirements_reached env uid content hreach
    rw [hc]
    simp [installTail, hpc, hrc]
  · intro hpc hreach
    obtain ⟨c0, hc⟩ := install_requirements_reached env uid content hreach
    rw [hc]
    simp [installTail, hpc]
  · intro err hpc hreach
    obtain ⟨c0, hc⟩ := install_requirements_reached env uid content hreach
    rw [hc]
    simp [installTail, hpc]
  · intro hve hvc
    simp [install_requirements, hve, hvc]

/-- Witness for C6: concrete run with no pre-existing venv, successful
creation, and a pip failure with captured stderr. -/
theorem install_requirements_spec_wit :
    (install_requirements ⟨false, SubprocOutcome.completed 0 "", SubprocOutcome.completed 1 "boom"⟩
        7 "requests==2.31").calls =
      [⟨venvCreateCmd 7, 300⟩, ⟨pipInstallCmd 7, 600⟩] ∧
    (install_requirements ⟨false, SubprocOutcome.completed 0 "", SubprocOutcome.completed 1 "boom"⟩
        7 "requests==2.31").ok = false ∧
    (install_requirements ⟨false, SubprocOutcome.completed 0 "", SubprocOutcome.completed 1 "boom"⟩
        7 "requests==2.31").msg = "Failed to install requirements: " ++ "boom" := by
  have h := install_requirements_spec
    ⟨false, SubprocOutcome.completed 0 "", SubprocOutcome.completed 1 "boom"⟩ 7 "requests==2.31"
  have h1 := h.1.2.2 rfl "" rfl
  have h2 := h.2.1 1 "boom" rfl (by decide) (Or.inr ⟨"", rfl⟩)
  exact ⟨h1, h2.1, h2.2⟩

theorem grsGo_frame (uid : Nat) (snap : List (String × Proc)) (reg : Registry)
    (k : String) (hk : pyStartswith k (userPref uid) = false) :
    dictGet? (grsGo uid snap reg).2 k = dictGet? reg k := by
  induction snap generalizing reg with
  | nil => rfl
  | cons e rest ih =>
    obtain ⟨ke, pe⟩ := e
    by_cases hs : pyStartswith ke (userPref uid) = true
    · by_cases ha : pe.alive = true
      · simp [grsGo, hs, ha, ih]
      · have hne : k ≠ ke := by
          intro hh
          rw [hh, hs] at hk
          cases hk
        simp only [Bool.not_eq_true] at ha
        rw [grsGo, hs, ha]
        simp only [Bool.false_eq_true, if_false, if_true]
        rw [ih (eraseKey ke reg)]
        exact dictGet?_eraseKey_ne ke k reg hne
    · simp only [Bool.not_eq_true] at hs
      simp [grsGo, hs, ih]

/-- C10: `get_running_scripts(u)` and `stop_script(u, s)` never evict,
overwrite, or otherwise change a registry entry keyed to a different user
`u'`: lookup of any other user's key is unchanged by either operation. -/
theorem other_users_frame (reg : Registry) (u u' : Nat) (s s' : String) (h : u' ≠ u) :
    dictGet? (get_running_scripts u reg).2 (mkKey u' s') = dictGet? reg (mkKey u' s') ∧
    dictGet? (stop_script u s reg).2 (mkKey u' s') = dictGet? reg (mkKey u' s') := by
  have hu : u ≠ u' := fun hh => h hh.symm
  constructor
  · exact grsGo_frame u reg reg (mkKey u' s') (pyStartswith_mkKey_ne hu s')
  · rcases hg : dictGet? reg (mkKey u s) with _ | p
    · simp [stop_script, hg]
    · have hkne : mkKey u' s' ≠ mkKey u s := mkKey_ne_of_user_ne h s' s
      rcases hse : p.stopErr with _ | e
      · rcases ht : p.termSecs with _ | t
        · simp [stop_script, hg, hse, ht, dictGet?_eraseKey_ne _ _ _ hkne]
        · by_cases hle : t ≤ stopGraceSecs <;>
            simp [stop_script, hg, hse, ht, hle, dictGet?_eraseKey_ne _ _ _ hkne]
      · simp [stop_script, hg, hse]

/-- Witness for C10: user 1's list and stop operations leave user 2's live
entry untouched. -/
theorem other_users_frame_wit :
    dictGet? (get_running_scripts 1 [(mkKey 2 "b.py", ⟨9, true, some 0, none⟩)]).2
        (mkKey 2 "b.py") =
      dictGet? [(mkKey 2 "b.py", ⟨9, true, some 0, none⟩)] (mkKey 2 "b.py") ∧
    dictGet? (stop_script 1 "a.py" [(mkKey 2 "b.py", ⟨9, true, some 0, none⟩)]).2
        (mkKey 2 "b.py") =
      dictGet? [(mkKey 2 "b.py", ⟨9, true, some 0, none⟩)] (mkKey 2 "b.py") :=
  other_users_frame [(mkKey 2 "b.py", ⟨9, true, some 0, none⟩)] 1 2 "a.py" "b.py" (by decide)
